import Mathlib

/-!
Verification development for the icalendar-searcher repository.

The Python sources (searcher.py, filters.py, utils.py, collation.py) are
shallowly embedded below: pure functions become Lean functions, the mutable
`Searcher` dataclass becomes an explicit state record that is threaded through
`checkComponent`, Python `None` becomes `Option`, Python exceptions become
`Except PyError`, and `datetime`/`date` values become integer instants
(seconds) respectively day numbers, with the local-time-zone normalisation of
`_normalize_dt` modelled as the identity offset (it is applied uniformly to
query bounds and component timestamps, so relative comparisons are preserved).

External collaborators (the icalendar object model's derived `.start`/`.end`
accessors, the recurring_ical_events expander, the optional ICU collation
backend) are consumed through narrow interfaces; they are modelled from the
specification's description of those interfaces (spec sections 1 and 6) and,
for the `.end` accessor, from the behaviour pinned down by the repository's
own test-suite (tests/test_date_only_events.py).
-/

namespace ICalSearcher

/-- Uppercasing, implemented over the character list so that it reduces
inside the kernel (the core `String.toUpper` does not). -/
def upperStr (s : String) : String :=
  ⟨s.data.map Char.toUpper⟩

/-- Lowercasing (Python `str.lower`), kernel-reducible. -/
def lowerStr (s : String) : String :=
  ⟨s.data.map Char.toLower⟩

/-- Substring occurrence on character lists. -/
def containsSubList (needle : List Char) : List Char → Bool
  | [] => needle.isEmpty
  | ch :: rest => needle.isPrefixOf (ch :: rest) || containsSubList needle rest

/-- Python `needle in haystack` on strings: substring containment, with the
empty needle contained in everything. -/
def pyInStr (needle haystack : String) : Bool :=
  containsSubList needle.data haystack.data

/-- Helper for `splitComma`. -/
def splitCommaAux : List Char → List Char → List String
  | [], acc => [⟨acc.reverse⟩]
  | ch :: rest, acc =>
    if ch = ',' then ⟨acc.reverse⟩ :: splitCommaAux rest []
    else splitCommaAux rest (ch :: acc)

/-- Python `s.split(",")` (empty pieces are kept, `""` gives `[""]`). -/
def splitComma (s : String) : List String :=
  splitCommaAux s.data []

instance {α β : Type} [DecidableEq α] [DecidableEq β] : DecidableEq (Except α β) :=
  fun a b =>
    match a, b with
    | .ok x, .ok y => if h : x = y then .isTrue (by rw [h]) else .isFalse (by simp [h])
    | .error x, .error y => if h : x = y then .isTrue (by rw [h]) else .isFalse (by simp [h])
    | .ok _, .error _ => .isFalse (by simp)
    | .error _, .ok _ => .isFalse (by simp)

/-- Calendar temporal values: either a whole-day date (day number) or a
date-time (absolute seconds). Mirrors the Python `date` / `datetime`
distinction that `_normalize_dt` collapses. -/
inductive ICalTime where
  | date (d : Int)
  | dateTime (t : Int)
deriving DecidableEq, Repr

/-- Embedding of `_normalize_dt` (utils.py): a date becomes the date-time at
midnight of that day, a date-time is returned as-is (`astimezone` is modelled
as the identity offset). The result is an absolute instant in seconds. -/
def normalizeDt : ICalTime → Int
  | .date d => d * 86400
  | .dateTime t => t

/-- Property values as stored by the icalendar object model: text (vText),
temporal values (vDDDTypes, exposing `.dt`), durations (vDuration, exposing a
timedelta `.dt`, in seconds), category lists (vCategory, exposing `.cats`),
integers (vInt), and an opaque marker for recurrence-rule values. -/
inductive PropVal where
  | text (s : String)
  | time (t : ICalTime)
  | dur (secs : Int)
  | cats (l : List String)
  | num (n : Int)
  | recur
deriving DecidableEq, Repr

/-- One property of a component: its (caseless) key, its value, and its
parameters (used only for TRIGGER's RELATED parameter). -/
structure PropEntry where
  key : String
  value : PropVal
  params : List (String × String) := []
deriving DecidableEq, Repr

/-- A calendar component: a name tag (VCALENDAR, VEVENT, VTODO, VJOURNAL,
VALARM, VTIMEZONE, ...), a property dictionary and a subcomponent list.
icalendar components are caseless dictionaries of properties; the
subcomponents live in a separate list attribute. -/
inductive Comp where
  | mk (name : String) (props : List PropEntry) (subs : List Comp)

def Comp.name : Comp → String
  | .mk n _ _ => n

def Comp.props : Comp → List PropEntry
  | .mk _ p _ => p

def Comp.subs : Comp → List Comp
  | .mk _ _ s => s

/-- Caseless property lookup (icalendar's CaselessDict uppercases keys). -/
def Comp.getEntry (c : Comp) (k : String) : Option PropEntry :=
  c.props.find? (fun p => upperStr p.key == upperStr k)

/-- Python `component.get(k)` / `component[k]` value lookup. -/
def Comp.get (c : Comp) (k : String) : Option PropVal :=
  (c.getEntry k).map (·.value)

/-- Python `k in component` membership test. -/
def Comp.has (c : Comp) (k : String) : Bool :=
  (c.getEntry k).isSome

/-- Python truthiness of a component: it is a dict subclass, so it is truthy
exactly when it holds at least one property. -/
def Comp.pyTruthy (c : Comp) : Bool :=
  !c.props.isEmpty

/-- Model of the `component.categories` accessor: the CATEGORIES property's
name list, or the default empty container when CATEGORIES is not set. -/
def Comp.categories (c : Comp) : List String :=
  match c.get "CATEGORIES" with
  | some (.cats l) => l
  | _ => []

/-- Python `set(...)` construction from a list of strings (deduplication;
only membership and cardinality of the result are ever used). -/
def pySet (l : List String) : List String :=
  l.dedup

/-- The Python exceptions that the embedded code can raise. The first three
are the `ValueError`s of `_validate_and_normalize_component`; `keyError` is a
dictionary lookup failure; `incomplete` is icalendar's IncompleteComponent;
`typeError` stands for Python TypeErrors (e.g. comparing None with datetime);
`attributeError` is a failed attribute access (e.g. `Collation.SIMPLE` at
filters.py line 188); `notImplemented` is NotImplementedError (the bodies of
`Searcher.filter` and `Searcher.sort`). -/
inductive PyError where
  | emptyInput
  | invalidRecurrenceSet
  | mixedUid
  | keyError (k : String)
  | incomplete
  | typeError
  | attributeError (k : String)
  | notImplemented
deriving DecidableEq, Repr

/-- Duration addition on calendar values: Python `date + timedelta` keeps only
whole days (`timedelta.days`, floor division), `datetime + timedelta` adds the
full duration. -/
def addDur : ICalTime → Int → ICalTime
  | .date d, secs => .date (d + secs.fdiv 86400)
  | .dateTime t, secs => .dateTime (t + secs)

/-- The default end of a component whose start must stand in for its end:
one day after a date-only start (whole-day semantics), the start itself for a
date-time start. -/
def defaultEventEnd : ICalTime → ICalTime
  | .date d => .date (d + 1)
  | .dateTime t => .dateTime t

/-- Model of the calendar-object-model collaborator's derived `.start`
accessor (spec section 6): the DTSTART value, raising IncompleteComponent
when DTSTART is absent. -/
def componentStart (c : Comp) : Except PyError ICalTime :=
  match c.get "DTSTART" with
  | some (.time t) => .ok t
  | _ => .error .incomplete

/-- Model of the collaborator's derived `.end` accessor (spec section 6;
behaviour of the all-day default pinned by tests/test_date_only_events.py):
for events DTEND, else DTSTART+DURATION, else one day after a date-only
DTSTART / the DTSTART itself for a date-time DTSTART; for todos DUE, else
DTSTART+DURATION, else IncompleteComponent; for journals derived from the
start; IncompleteComponent whenever the needed inputs are missing. -/
def componentEnd (c : Comp) : Except PyError ICalTime :=
  match c.name with
  | "VEVENT" =>
    match c.get "DTEND" with
    | some (.time t) => .ok t
    | _ =>
      match c.get "DURATION" with
      | some (.dur d) => (componentStart c).map (fun t => addDur t d)
      | _ => (componentStart c).map defaultEventEnd
  | "VTODO" =>
    match c.get "DUE" with
    | some (.time t) => .ok t
    | _ =>
      match c.get "DURATION" with
      | some (.dur d) => (componentStart c).map (fun t => addDur t d)
      | _ => .error .incomplete
  | "VJOURNAL" => (componentStart c).map defaultEventEnd
  | _ => .error .incomplete

/-- Model of `recurring_ical_events.DATE_MIN_DT`, normalized: an extreme
early instant (only its being far below every realistic instant and below
`dateMaxInstant` matters). -/
def dateMinInstant : Int := -30610224000

/-- Model of `recurring_ical_events.DATE_MAX_DT`, normalized: an extreme late
instant. -/
def dateMaxInstant : Int := 253402300799

/-- Spec-side final range test, following spec section 4.2 steps 3 and 4
verbatim: widen a zero-length interval by one second, then intersect with the
query using strict end / strict start comparisons, each query bound optional. -/
def specRangeTest (qstart qend : Option Int) (cs ce : Int) : Bool :=
  let ce2 := if cs = ce then ce + 1 else ce
  match qstart, qend with
  | some s, some e => decide (s < ce2) && decide (e > cs)
  | none, some e => decide (e > cs)
  | some s, none => decide (s < ce2)
  | none, none => true

/-- The VTODO branch of `_check_range` (filters.py lines 75–110): DUE and
DTSTART default to each other when only one is known; CREATED / COMPLETED are
used (independently, when present) if neither is known; start and end are
swapped when out of order; a todo with no timestamps at all spans
[DATE_MIN_DT, DATE_MAX_DT]. -/
def vtodoAdjust (c : Comp) (cs0 ce0 : Option Int) : Option Int × Option Int :=
  let cs1 := if ce0.isSome && cs0.isNone then ce0 else cs0
  let ce1 := if cs1.isSome && ce0.isNone then cs1 else ce0
  let cs2 := if cs1.isNone then
      (match c.get "CREATED" with
       | some (.time t) => some (normalizeDt t)
       | _ => cs1)
    else cs1
  let ce2 := if cs1.isNone then
      (match c.get "COMPLETED" with
       | some (.time t) => some (normalizeDt t)
       | _ => ce1)
    else ce1
  let p :=
    match cs2, ce2 with
    | some a, some b => if b < a then (some b, some a) else (some a, some b)
    | _, _ => (cs2, ce2)
  if p.1.isNone && p.2.isNone then
    (some dateMinInstant, some dateMaxInstant)
  else p

/-- Embedding of `FilterMixin._check_range` (filters.py lines 28–136).
The query bounds are already-normalized instants (check_component normalizes
them before this runs). Notes kept from the source: after `_normalize_dt`
every known start is a date-time, so for a VEVENT lacking DTEND the
zero-duration assignment applies and the source's dead `timedelta(day=1)`
branch is unreachable (likewise the date branch of the VJOURNAL arm). -/
def checkRange (qstart qend : Option Int) (c : Comp) : Except PyError Bool :=
  let compEnd0 : Option Int :=
    match componentEnd c with
    | .ok t => some (normalizeDt t)
    | .error _ => none
  match (match componentStart c with
         | .ok t => .ok (some (normalizeDt t))
         | .error e =>
           if c.name = "VEVENT" then .error e
           else .ok (none : Option Int) : Except PyError (Option Int)) with
  | .error e => .error e
  | .ok compStart0 =>
    if c.name = "VJOURNAL" && compStart0.isNone then .ok false
    else
      let se : Option Int × Option Int :=
        if c.name = "VEVENT" then
          (compStart0, if compEnd0.isNone then compStart0 else compEnd0)
        else if c.name = "VTODO" then
          vtodoAdjust c compStart0 compEnd0
        else if c.name = "VJOURNAL" then
          (compStart0, compStart0)
        else
          (compStart0, compEnd0)
      match (if se.1 = se.2 then
              match se.2 with
              | some v => .ok (some (v + 1))
              | none => .error PyError.typeError
             else .ok se.2 : Except PyError (Option Int)) with
      | .error e => .error e
      | .ok compEnd2 =>
        match qstart, qend, compEnd2, se.1 with
        | some s, some e, some ce, some cs => .ok (decide (s < ce) && decide (e > cs))
        | some _, some _, some _, none => .error PyError.typeError
        | none, some e, _, some cs => .ok (decide (e > cs))
        | some _, some e, none, some cs => .ok (decide (e > cs))
        | none, some _, _, none => .error PyError.typeError
        | some _, some _, none, none => .error PyError.typeError
        | some s, none, some ce, _ => .ok (decide (s < ce))
        | some _, none, none, _ => .ok true
        | none, none, _, _ => .ok true

/-- Python truthiness of a tri-state (`Option Bool`) field: `None` and
`False` are falsy. -/
def pyTruthyOptBool : Option Bool → Bool
  | some b => b
  | none => false

/-- Whether `component.get("STATUS", "NEEDS-ACTION")` is COMPLETED or
CANCELLED (the default "NEEDS-ACTION" is neither, and a non-text STATUS value
never compares equal to either string). -/
def statusCompletedOrCancelled (c : Comp) : Bool :=
  match c.get "STATUS" with
  | some (.text s) => s == "COMPLETED" || s == "CANCELLED"
  | _ => false

/-- Embedding of `FilterMixin._check_completed_filter` (filters.py lines
138–159). Python truthiness makes an unset (`None`) `include_completed` take
the filtering path just like `False`. -/
def checkCompletedFilter (includeCompleted : Option Bool) (c : Comp) : Bool :=
  if pyTruthyOptBool includeCompleted then true
  else if c.name ≠ "VTODO" then true
  else if statusCompletedOrCancelled c then false
  else if c.has "COMPLETED" then false
  else true

/-- Embedding of the `Collation` enum of collation.py (lines 23–51): the
snapshot's four members. In particular there is no `SIMPLE` member, so the
`Collation.SIMPLE` attribute access at filters.py line 188 raises
AttributeError. -/
inductive Collation where
  | binary
  | caseInsensitive
  | unicode
  | locale
deriving DecidableEq, Repr

/-- The three operators `add_property_filter` accepts ("contains", "undef",
"=="); any other operator raises NotImplementedError at registration time,
before any state is touched. -/
inductive POperator where
  | containsOp
  | undef
  | eqOp
deriving DecidableEq, Repr

/-- The value stored for a registered filter: the "categories" key stores a
vCategory (a comma-split list of names), other keys store the stringified
typed value (vText and friends); `undef` filters store no value. -/
inductive FilterVal where
  | vcat (cats : List String)
  | str (s : String)
deriving DecidableEq, Repr

/-- One registered property filter: the verbatim key together with that key's
entries in the Searcher's parallel per-key dicts (`_property_filters`,
`_property_operator`, `_property_collation`, `_property_locale`; searcher.py
lines 129–132 — the snapshot has no `_property_case_sensitive` dict). -/
structure PFilter where
  key : String
  op : POperator
  value : Option FilterVal
  collation : Collation := .binary
  locale : Option String := none
deriving DecidableEq, Repr

/-- Dict-update semantics for the per-key filter registries: replace in place
when the key already exists, append otherwise (Python dict insertion order). -/
def upsertFilter (l : List PFilter) (f : PFilter) : List PFilter :=
  if l.any (fun g => g.key = f.key) then
    l.map (fun g => if g.key = f.key then f else g)
  else l ++ [f]

/-- Embedding of `Searcher.add_property_filter` (searcher.py lines 134–250)
restricted to string filter values and the simple API (no explicit collation
argument): "categories" values are comma-split into a vCategory, "category"
values are kept verbatim, other values become typed text; the operator is
validated to be one of the three supported ones (here enforced by the
`POperator` type); the stored collation is CASE_INSENSITIVE when
case_sensitive is False and BINARY otherwise (lines 243–250). -/
def registerPropertyFilter (l : List PFilter) (key : String) (value : String)
    (op : POperator) (caseSensitive : Bool) : List PFilter :=
  let v : Option FilterVal :=
    if op = .undef then none
    else if lowerStr key = "categories" then some (.vcat (splitComma value))
    else if lowerStr key = "category" then some (.str value)
    else some (.str value)
  upsertFilter l { key := key, op := op, value := v,
                   collation := if caseSensitive then .binary else .caseInsensitive }

/-- Embedding of `FilterMixin._check_property_filters` (filters.py lines
164–371). With an empty filter registry the loop body never runs and the
method returns True (line 371). With any registered filter the first loop
iteration reaches line 188, `self._property_collation.get(key,
Collation.SIMPLE)`: Python evaluates the `.get` default argument eagerly and
the `Collation` enum of collation.py has no `SIMPLE` member, so the call
raises AttributeError before any operator is dispatched or any comparison is
made — regardless of the registered keys, operators or the skip_undef flag
(line 190 would likewise read the nonexistent `_property_case_sensitive`).
The statements before line 188 (lines 176–185) are effect-free lookups, so
every call with a nonempty registry has the raise as its only observable
behavior, and the comparison arms at lines 193–369 are unreachable. -/
def checkPropertyFilters (c : Comp) (skipUndef : Bool) :
    List PFilter → Except PyError Bool
  | [] => .ok true
  | _ :: _ => .error (.attributeError "SIMPLE")

/-- The RELATED parameter of a trigger, defaulting to START (parameter
dictionaries are caseless as well). -/
def triggerRelated (e : PropEntry) : String :=
  match e.params.find? (fun p => upperStr p.1 == "RELATED") with
  | some p => p.2
  | none => "START"

/-- Base fire time of one alarm (filters.py lines 407–441): an absolute
trigger is normalized directly; a relative trigger is anchored at the
component end when RELATED=END and an end is known, else at the component
start when known. `none` means the alarm is skipped (no TRIGGER, a trigger
value without `.dt`, or no usable anchor). -/
def alarmBaseTime (compStart compEnd : Option Int) (a : Comp) : Option Int :=
  match a.getEntry "TRIGGER" with
  | none => none
  | some e =>
    match e.value with
    | .dur d =>
      if triggerRelated e == "END" && compEnd.isSome then
        compEnd.map (· + d)
      else
        match compStart with
        | some cs => some (cs + d)
        | none => none
    | .time t => some (normalizeDt t)
    | _ => none

/-- The snooze duration of an alarm when usable: `alarm["DURATION"].dt` if
the DURATION value is a timedelta, else None (filters.py line 447). -/
def alarmSnoozeDur (a : Comp) : Option Int :=
  match a.get "DURATION" with
  | some (.dur d) => some d
  | _ => none

/-- `int(alarm["REPEAT"])` (only integer REPEAT values are in scope). -/
def alarmRepeatCount (a : Comp) : Int :=
  match a.get "REPEAT" with
  | some (.num n) => n
  | _ => 0

/-- The alarm window test (filters.py lines 454–475): half-open when both
bounds are set, one-sided otherwise, and never satisfied when no bound is
set (the source then falls off the end of the loop). -/
def inAlarmWindow (aStart aEnd : Option Int) (t : Int) : Bool :=
  match aStart, aEnd with
  | some a, some b => decide (a ≤ t) && decide (t < b)
  | some a, none => decide (t ≥ a)
  | none, some b => decide (t < b)
  | none, none => false

/-- The fire times the source evaluates for one alarm: `REPEAT+1` snooze
times `base + duration*i` when both REPEAT and a usable truthy (non-zero)
DURATION are present, otherwise the single base time (a zero or unusable
DURATION falls through to the single check, and a negative REPEAT yields an
empty snooze loop after which the alarm is skipped). -/
def alarmFireTimes (compStart compEnd : Option Int) (a : Comp) : List Int :=
  match alarmBaseTime compStart compEnd a with
  | none => []
  | some b =>
    if a.has "REPEAT" && a.has "DURATION" then
      match alarmSnoozeDur a with
      | some d =>
        if d ≠ 0 then
          (List.range (alarmRepeatCount a + 1).toNat).map (fun i => b + d * (i : Int))
        else [b]
      | none => [b]
    else [b]

/-- The component start as the alarm matcher computes it (filters.py lines
395–400): normalized, None when the accessor raises. -/
def compStartOpt (c : Comp) : Option Int :=
  match componentStart c with
  | .ok t => some (normalizeDt t)
  | .error _ => none

/-- The component end as the alarm matcher computes it (filters.py lines
401–404). -/
def compEndOpt (c : Comp) : Option Int :=
  match componentEnd c with
  | .ok t => some (normalizeDt t)
  | .error _ => none

/-- Embedding of `FilterMixin._check_alarm_range` (filters.py lines 375–477).
The source's loop with early `return True` and `continue` is exactly an
existential over alarms and their fire times. -/
def checkAlarmRange (aStart aEnd : Option Int) (c : Comp) : Bool :=
  let alarms := c.subs.filter (fun x => x.name == "VALARM")
  if alarms.isEmpty then false
  else
    alarms.any (fun a =>
      (alarmFireTimes (compStartOpt c) (compEndOpt c) a).any (inAlarmWindow aStart aEnd))

/-- The Searcher's query-configuration state (searcher.py lines 23–132):
tri-state kind flags, optional entry/alarm range bounds (possibly date-valued
until the in-place normalization), tri-state `include_completed`, the
`expand` flag, and the registration lists. The Python field `end` is named
`stop` here (`end` is reserved in Lean); `sort_keys` holds the
(key, reversed) pairs appended by `add_sort_key`. -/
structure Searcher where
  todo : Option Bool := none
  event : Option Bool := none
  journal : Option Bool := none
  start : Option ICalTime := none
  stop : Option ICalTime := none
  alarm_start : Option ICalTime := none
  alarm_end : Option ICalTime := none
  include_completed : Option Bool := none
  expand : Bool := false
  property_filters : List PFilter := []
  sort_keys : List (String × Option Bool) := []
deriving DecidableEq, Repr

/-- The in-place range normalization of check_component (searcher.py lines
352–359): every set bound is passed through `_normalize_dt` and written back. -/
def normalizeRanges (s : Searcher) : Searcher :=
  { s with
    start := s.start.map (fun v => .dateTime (normalizeDt v)),
    stop := s.stop.map (fun v => .dateTime (normalizeDt v)),
    alarm_start := s.alarm_start.map (fun v => .dateTime (normalizeDt v)),
    alarm_end := s.alarm_end.map (fun v => .dateTime (normalizeDt v)) }

/-- The include_completed default resolution written back by check_component
(searcher.py lines 400–401): `not self.todo` under Python truthiness. -/
def resolveIncludeCompleted (s : Searcher) : Searcher :=
  if s.include_completed = none then
    { s with include_completed := some (!pyTruthyOptBool s.todo) }
  else s

/-- The component-kind flag resolution written back by check_component
(searcher.py lines 414–422): when any flag is truthy, unset flags become
False; otherwise unset flags become True. -/
def resolveKindFlags (s : Searcher) : Searcher :=
  if pyTruthyOptBool s.todo || pyTruthyOptBool s.event || pyTruthyOptBool s.journal then
    { s with
      todo := some (pyTruthyOptBool s.todo),
      event := some (pyTruthyOptBool s.event),
      journal := some (pyTruthyOptBool s.journal) }
  else
    { s with
      todo := some (s.todo.getD true),
      event := some (s.event.getD true),
      journal := some (s.journal.getD true) }

/-- The accepted component-type set `comptypesu` (searcher.py line 424),
from the resolved flags, in the source's (todo, event, journal) order. -/
def comptypesU (s : Searcher) : List String :=
  (if pyTruthyOptBool s.todo then ["VTODO"] else []) ++
  (if pyTruthyOptBool s.event then ["VEVENT"] else []) ++
  (if pyTruthyOptBool s.journal then ["VJOURNAL"] else [])

/-- The component-kind filtering stage (searcher.py lines 439–440): skipped
entirely (everything passes) when all three resolved flags are truthy,
otherwise membership of the component name in `comptypesu`. -/
def kindStagePasses (s : Searcher) (c : Comp) : Bool :=
  if pyTruthyOptBool s.todo && pyTruthyOptBool s.event && pyTruthyOptBool s.journal then
    true
  else (comptypesU s).contains c.name

/-- Embedding of `Searcher._unwrap` (searcher.py lines 557–570): a bare
non-calendar component is wrapped into a fresh calendar holding it (wrapper
objects exposing `icalendar_instance` are outside the model). -/
def unwrap (c : Comp) : Comp :=
  if c.name ≠ "VCALENDAR" then .mk "VCALENDAR" [] [c] else c

/-- The non-timezone component list normalization starts from. -/
def nonTzComponents (input : Comp) : List Comp :=
  (unwrap input).subs.filter (fun x => x.name ≠ "VTIMEZONE")

/-- The UID scan of `_validate_and_normalize_component` (searcher.py line
632): `any(x for x in components if x["uid"] != first["uid"])`. Per scanned
component the generator looks up `x["uid"]` and then `first["uid"]` (KeyError
when absent) and yields `x` on a mismatch; `any` stops at the first truthy
yielded component (a component holding a UID is a nonempty dict, hence
truthy). -/
def uidMismatchScan (first : Comp) : List Comp → Except PyError Bool
  | [] => .ok false
  | x :: rest =>
    match x.get "uid" with
    | none => .error (.keyError "uid")
    | some xu =>
      match first.get "uid" with
      | none => .error (.keyError "uid")
      | some fu =>
        if xu ≠ fu && x.pyTruthy then .ok true
        else uidMismatchScan first rest

/-- Embedding of `Searcher._validate_and_normalize_component` (searcher.py
lines 572–636): unwrap, strip timezone subcomponents, then the emptiness
check, the recurrence-set shape check and the mixed-UID scan, in that order. -/
def validateAndNormalize (input : Comp) : Except PyError (List Comp) :=
  let components := nonTzComponents input
  match components with
  | [] => .error .emptyInput
  | first :: _ =>
    if components.length > 1 &&
       ((!(first.has "RRULE") && !(first.has "RECURRENCE-ID")) ||
        !((components.drop 1).all (fun x => x.has "recurrence-id")) ||
        (components.drop 1).any (fun x => x.has "RRULE")) then
      .error .invalidRecurrenceSet
    else
      match uidMismatchScan first components with
      | .error e => .error e
      | .ok true => .error .mixedUid
      | .ok false => .ok components

/-- The recurrence-expansion collaborator (recurring_ical_events), abstracted
as a function parameter: given the working component set, the component-type
restriction and the closed normalized query interval (unset bounds default to
DATE_MIN_DT / DATE_MAX_DT), it returns concrete occurrence components
(`_expand_recurrences`, searcher.py lines 638–660, which builds the calendar
from local variables and touches no Searcher state). -/
def Expander : Type :=
  List Comp → List String → Int → Int → List Comp

/-- The observable result of check_component: a falsy no-match (None or
False) or a truthy result (the original validated list in non-expand mode,
the nonempty surviving occurrence list in expand mode). -/
inductive CheckResult where
  | noMatch
  | matched (comps : List Comp)

/-- Python truthiness of a check_component result. -/
def CheckResult.toBool : CheckResult → Bool
  | .noMatch => false
  | .matched _ => true

/-- One candidate's pass through the filter pipeline of check_component
(searcher.py lines 432–451). The chained filter generators evaluate, per
candidate, the range stage, the kind stage, the completion stage, the
property stage and the alarm stage in this order, each stage guarded by the
source's condition, with errors (e.g. a VEVENT lacking DTSTART in the range
stage, or the property stage's unconditional AttributeError whenever any
filter is registered) surfacing when the candidate is pulled. -/
def elementPasses (s : Searcher) (ignore : Bool) (x : Comp) : Except PyError Bool :=
  match (if !ignore && (s.start.isSome || s.stop.isSome) then
          checkRange (s.start.map normalizeDt) (s.stop.map normalizeDt) x
         else .ok true : Except PyError Bool) with
  | .error e => .error e
  | .ok r =>
    if !r then .ok false
    else if !(kindStagePasses s x) then .ok false
    else if !(checkCompletedFilter s.include_completed x) then .ok false
    else
      match (if !s.property_filters.isEmpty then
              checkPropertyFilters x false s.property_filters
             else .ok true : Except PyError Bool) with
      | .error e => .error e
      | .ok p =>
        if !p then .ok false
        else if !ignore && (s.alarm_start.isSome || s.alarm_end.isSome)
                && !(checkAlarmRange (s.alarm_start.map normalizeDt)
                      (s.alarm_end.map normalizeDt) x) then .ok false
        else .ok true

/-- Lazy consumption of the pipeline in non-expand mode: `next` pulls
candidates through all stages until the first survivor; candidates after the
first survivor are never evaluated. -/
def findFirstSurvivor (s : Searcher) (ignore : Bool) : List Comp → Except PyError (Option Comp)
  | [] => .ok none
  | x :: rest =>
    match elementPasses s ignore x with
    | .error e => .error e
    | .ok true => .ok (some x)
    | .ok false => findFirstSurvivor s ignore rest

/-- Consumption of the pipeline in expand mode (collected eagerly; see the
laziness note on `checkComponentAux`). -/
def collectSurvivors (s : Searcher) (ignore : Bool) : List Comp → Except PyError (List Comp)
  | [] => .ok []
  | x :: rest =>
    match elementPasses s ignore x with
    | .error e => .error e
    | .ok p =>
      match collectSurvivors s ignore rest with
      | .error e => .error e
      | .ok tail => if p then .ok (x :: tail) else .ok tail

/-- The tail of the `Searcher.check_component` body, from the
include_completed resolution onwards (searcher.py lines 399–460): flag
resolutions, optional delegation to the recurrence expander, the filter
pipeline and the result assembly. -/
def checkComponentRest (s2 : Searcher) (ex : Expander) (origSet recSet : List Comp)
    (first : Comp) (expandOnly ignore : Bool) : Searcher × Except PyError CheckResult :=
  let s3 := resolveIncludeCompleted s2
  let s4 := resolveKindFlags s3
  let comptypesForExpansion :=
    if expandOnly then ["VTODO", "VEVENT", "VJOURNAL"] else comptypesU s4
  let recSet2 :=
    if !ignore && first.has "RRULE" then
      ex recSet comptypesForExpansion
        ((s4.start.map normalizeDt).getD dateMinInstant)
        ((s4.stop.map normalizeDt).getD dateMaxInstant)
    else recSet
  if expandOnly then
    -- no filtering at all; `self.expand` is true here (else check_component's
    -- early return fired), so the result is `_iterable_or_false`
    match recSet2 with
    | [] => (s4, .ok .noMatch)
    | l => (s4, .ok (.matched l))
  else if s4.expand then
    match collectSurvivors s4 ignore recSet2 with
    | .error e => (s4, .error e)
    | .ok [] => (s4, .ok .noMatch)
    | .ok l => (s4, .ok (.matched l))
  else
    match findFirstSurvivor s4 ignore recSet2 with
    | .error e => (s4, .error e)
    | .ok none => (s4, .ok .noMatch)
    | .ok (some x) =>
      if x.pyTruthy then (s4, .ok (.matched origSet))
      else (s4, .ok .noMatch)

/-- The master pre-check of check_component (searcher.py lines 390–396):
when the first component carries an RRULE (and this is not the internal
recursive call), re-invoke the body on the master alone with
`_ignore_rrule_and_time=True`; when that reports no match, drop the master
and keep only the exception overrides. -/
def checkComponentStep1 (s1 : Searcher) (origSet : List Comp) (first : Comp)
    (expandOnly ignore : Bool)
    (innerCall : Searcher → Comp → Searcher × Except PyError CheckResult) :
    Searcher × Except PyError (List Comp) :=
  if !expandOnly && first.has "RRULE" && !ignore then
    match innerCall s1 first with
    | (s2, .error e) => (s2, .error e)
    | (s2, .ok r) =>
      if !r.toBool then (s2, .ok (origSet.drop 1)) else (s2, .ok origSet)
  else (s1, .ok origSet)

/-- The body of `Searcher.check_component` (searcher.py lines 307–460) with
the master pre-check call abstracted as `innerCall`; `checkComponentAux`
below ties the knot. Input normalization, the early return, the in-place
range normalization and the master pre-check live here; the rest of the body
is `checkComponentRest`; the master pre-check itself is
`checkComponentStep1` (searcher.py lines 390–396). The mutable `self` is threaded: the returned
Searcher is the post-call state, also on an exceptional result (a Python
exception does not roll mutations back). Generator laziness is modelled
exactly for the non-expand consumption; in expand mode the survivors are
collected eagerly, which only differs on errors the source defers until the
caller iterates past the first survivor. -/
def checkComponentCore (s : Searcher) (ex : Expander) (input : Comp)
    (expandOnly : Bool) (ignore : Bool)
    (innerCall : Searcher → Comp → Searcher × Except PyError CheckResult) :
    Searcher × Except PyError CheckResult :=
  match validateAndNormalize input with
  | .error e => (s, .error e)
  | .ok origSet =>
    if expandOnly && !s.expand then (s, .ok (.matched origSet)) else
    let s1 := normalizeRanges s
    let first := origSet.headD (.mk "" [] [])
    match checkComponentStep1 s1 origSet first expandOnly ignore innerCall with
    | (s2, .error e) => (s2, .error e)
    | (s2, .ok recSet) => checkComponentRest s2 ex origSet recSet first expandOnly ignore

/-- The placeholder inner call used where the recursion guard makes the
inner call unreachable: with `_ignore_rrule_and_time=True` the source never
recurses, so the nested body never consults this argument. -/
def innerUnused : Searcher → Comp → Searcher × Except PyError CheckResult :=
  fun st _ => (st, .ok .noMatch)

/-- Embedding of `Searcher.check_component` (searcher.py lines 307–460): the
master pre-check re-invokes check_component on the master alone with
`_ignore_rrule_and_time=True`, which cannot recurse further, so the source's
recursion unrolls to exactly one nested instance of the body. -/
def checkComponentAux (s : Searcher) (ex : Expander) (input : Comp)
    (expandOnly : Bool) (ignore : Bool) : Searcher × Except PyError CheckResult :=
  checkComponentCore s ex input expandOnly ignore
    (fun st c => checkComponentCore st ex c false true innerUnused)

/-- Embedding of `Searcher.filter` (searcher.py lines 462–472): the body is
`raise NotImplementedError()`, so every call raises, whatever the Searcher
and the input containers. -/
def Searcher.filter (s : Searcher) (components : List Comp) :
    Except PyError (List Comp) :=
  .error .notImplemented

/-- Embedding of `Searcher.sort` (searcher.py lines 474–484): the body is
`raise NotImplementedError()`, so every call raises, whatever the Searcher
and the input components. -/
def Searcher.sort (s : Searcher) (components : List Comp) :
    Except PyError (List Comp) :=
  .error .notImplemented

/-- Python truthiness of a check_component call's outcome, as a caller's
`if searcher.check_component(...)` would observe it (an exceptional outcome
never reaches the truthiness test). -/
def resultToBool : Except PyError CheckResult → Bool
  | .ok r => r.toBool
  | .error _ => false

/-- The composition of the three in-place writes check_component performs on
its Searcher on the non-early-return path: range normalization,
include_completed resolution, kind-flag resolution. -/
def fullyResolve (s : Searcher) : Searcher :=
  resolveKindFlags (resolveIncludeCompleted (normalizeRanges s))

/-- A trivial expander collaborator returning the working set unchanged
(adequate wherever the input carries no RRULE, which makes the expander
irrelevant). -/
def idExpander : Expander := fun l _ _ _ => l

/-- A bare VTODO carrying only a UID (and hence no timestamps). -/
def bareTodo : Comp := .mk "VTODO" [{ key := "UID", value := .text "1" }] []

/-- A component with SUMMARY "x" and LOCATION "Room" (C1's failing input). -/
def c1Comp : Comp := .mk "VEVENT"
  [{ key := "UID", value := .text "1" },
   { key := "SUMMARY", value := .text "x" },
   { key := "LOCATION", value := .text "Room" }] []

/-- The registry after add_property_filter("SUMMARY", "x", "==") followed by
add_property_filter("LOCATION", "zzz", "contains"). -/
def c1Filters : List PFilter :=
  registerPropertyFilter (registerPropertyFilter [] "SUMMARY" "x" .eqOp true)
    "LOCATION" "zzz" .containsOp true

/-- A date-only (all-day) VEVENT on day 20000 with no DTEND and no DURATION. -/
def allDayEvent : Comp := .mk "VEVENT"
  [{ key := "UID", value := .text "1" },
   { key := "DTSTART", value := .time (.date 20000) }] []

/-- An alarm with a relative trigger at its anchor, REPEAT=2 and DURATION=5
minutes (300 seconds). -/
def repeatAlarm : Comp := .mk "VALARM"
  [{ key := "TRIGGER", value := .dur 0 },
   { key := "REPEAT", value := .num 2 },
   { key := "DURATION", value := .dur 300 }] []

/-- A VEVENT starting at `t0` that carries `repeatAlarm`. -/
def repeatAlarmEvent (t0 : Int) : Comp := .mk "VEVENT"
  [{ key := "UID", value := .text "1" },
   { key := "DTSTART", value := .time (.dateTime t0) }] [repeatAlarm]

/-- A calendar input whose two components both lack UIDs while also violating
the recurrence-set shape (the second has no RECURRENCE-ID). -/
def c10Input : Comp := .mk "VCALENDAR" []
  [.mk "VEVENT" [{ key := "SUMMARY", value := .text "a" }] [],
   .mk "VEVENT" [{ key := "SUMMARY", value := .text "b" }] []]

/-- A well-formed recurrence set: a master with RRULE and one exception
override with RECURRENCE-ID, sharing the UID "1". -/
def c3Input : Comp := .mk "VCALENDAR" []
  [.mk "VEVENT"
     [{ key := "UID", value := .text "1" },
      { key := "RRULE", value := .recur },
      { key := "DTSTART", value := .time (.dateTime 0) }] [],
   .mk "VEVENT"
     [{ key := "UID", value := .text "1" },
      { key := "RECURRENCE-ID", value := .time (.dateTime 86400) },
      { key := "DTSTART", value := .time (.dateTime 90000) }] []]

/-- Claim-side recurrence-shape violation (C3's wording): the first element
lacks both RRULE and RECURRENCE-ID, or some later element lacks RECURRENCE-ID
or carries RRULE. -/
def specShapeViolated : List Comp → Bool
  | [] => false
  | first :: rest =>
    ((!(first.has "RRULE")) && !(first.has "RECURRENCE-ID"))
    || rest.any (fun x => (!(x.has "RECURRENCE-ID")) || x.has "RRULE")

/-- Claim-side mixed-identity condition (C3's wording): two elements carry
different UIDs. -/
def specMixedUid (comps : List Comp) : Bool :=
  comps.any (fun a => comps.any (fun b => decide (a.get "uid" ≠ b.get "uid")))

/-- The outcome C3 predicts for normalization, assembled from the claim's
wording over the list of non-timezone subcomponents. -/
def specNormalizeOutcome (comps : List Comp) : Except PyError (List Comp) :=
  if comps.isEmpty then .error .emptyInput
  else if comps.length > 1 && specShapeViolated comps then .error .invalidRecurrenceSet
  else if specMixedUid comps then .error .mixedUid
  else .ok comps

/-- A Searcher before its first matching call: only the todo flag set, every
other tri-state unset and every range field unset. -/
def c8Pre : Searcher := { todo := some true }

/-! ## Claim theorems -/

/-- Helper: a tri-state flag that is not explicitly true is falsy. -/
theorem pyTruthyOptBool_eq_false {a : Option Bool} (h : a ≠ some true) :
    pyTruthyOptBool a = false := by
  rcases a with _ | b
  · rfl
  · cases b
    · rfl
    · exact absurd rfl h

/-- Helper: an explicitly-true tri-state flag is truthy. -/
theorem pyTruthyOptBool_some_true : pyTruthyOptBool (some true) = true := rfl

/-- Helper: an explicitly-false tri-state flag is falsy. -/
theorem pyTruthyOptBool_some_false : pyTruthyOptBool (some false) = false := rfl

/-- C1 (code bug): the property-filter evaluator never returns the AND of
the registered per-filter results, because with any registered filter it
never returns a boolean at all: the first loop iteration raises
AttributeError at filters.py line 188 (the eagerly evaluated `.get` default
`Collation.SIMPLE`, a member the snapshot's Collation enum lacks), so in
particular none of the claim's categories laws are behaviors of the
snapshot. With an empty registry the evaluator returns True vacuously. -/
theorem c1_property_filters_bug (c : Comp) (fs : List PFilter) (h : fs ≠ []) :
    checkPropertyFilters c false fs = .error (.attributeError "SIMPLE")
    ∧ (∀ b, checkPropertyFilters c false fs ≠ .ok b)
    ∧ checkPropertyFilters c false [] = .ok true := by
  rcases fs with _ | ⟨f, rest⟩
  · exact absurd rfl h
  · exact ⟨rfl, fun b hb => Except.noConfusion hb, rfl⟩

/-- Witness for c1_property_filters_bug: the two-filter registry
"SUMMARY == x" then "LOCATION contains zzz" against a matching component. -/
theorem c1_property_filters_bug_witness :
    checkPropertyFilters c1Comp false c1Filters = .error (.attributeError "SIMPLE")
    ∧ (∀ b, checkPropertyFilters c1Comp false c1Filters ≠ .ok b)
    ∧ checkPropertyFilters c1Comp false [] = .ok true :=
  c1_property_filters_bug c1Comp c1Filters (by decide)

/-- C5: component-kind default resolution: with all three flags unset every
component passes the kind filter; with exactly one flag explicitly true only
that kind passes; with two flags true exactly those two kinds pass (unset
flags default to false as soon as any flag is true, and to true when none
is). -/
theorem c5_kind_flags (s : Searcher) (c : Comp) (a b : Option Bool) :
    (kindStagePasses (resolveKindFlags { s with todo := none, event := none, journal := none }) c
      = true)
    ∧ (a ≠ some true → b ≠ some true →
        (kindStagePasses
            (resolveKindFlags { s with todo := some true, event := a, journal := b }) c = true
          ↔ c.name = "VTODO")
        ∧ (kindStagePasses
            (resolveKindFlags { s with todo := a, event := some true, journal := b }) c = true
          ↔ c.name = "VEVENT")
        ∧ (kindStagePasses
            (resolveKindFlags { s with todo := a, event := b, journal := some true }) c = true
          ↔ c.name = "VJOURNAL"))
    ∧ (a ≠ some true →
        (kindStagePasses
            (resolveKindFlags { s with todo := some true, event := some true, journal := a }) c
            = true
          ↔ (c.name = "VTODO" ∨ c.name = "VEVENT"))
        ∧ (kindStagePasses
            (resolveKindFlags { s with todo := some true, event := a, journal := some true }) c
            = true
          ↔ (c.name = "VTODO" ∨ c.name = "VJOURNAL"))
        ∧ (kindStagePasses
            (resolveKindFlags { s with todo := a, event := some true, journal := some true }) c
            = true
          ↔ (c.name = "VEVENT" ∨ c.name = "VJOURNAL"))) := by
  refine ⟨?_, ?_, ?_⟩
  · simp [resolveKindFlags, kindStagePasses, pyTruthyOptBool]
  · intro ha hb
    have ha' := pyTruthyOptBool_eq_false ha
    have hb' := pyTruthyOptBool_eq_false hb
    refine ⟨?_, ?_, ?_⟩ <;>
      simp [resolveKindFlags, kindStagePasses, comptypesU, ha', hb',
        pyTruthyOptBool_some_true, pyTruthyOptBool_some_false]
  · intro ha
    have ha' := pyTruthyOptBool_eq_false ha
    refine ⟨?_, ?_, ?_⟩ <;>
      simp [resolveKindFlags, kindStagePasses, comptypesU, ha',
        pyTruthyOptBool_some_true, pyTruthyOptBool_some_false]

/-- Witness for c5_kind_flags: the exactly-one-true and two-true cases at
concrete inputs. -/
theorem c5_kind_flags_witness :
    (none ≠ (some true : Option Bool))
    ∧ (kindStagePasses
        (resolveKindFlags
          { ({} : Searcher) with todo := some true, event := none, journal := none })
        bareTodo = true
      ↔ bareTodo.name = "VTODO") := by
  refine ⟨by decide, ?_⟩
  exact ((c5_kind_flags {} bareTodo none none).2.1 (by decide) (by decide)).1

/-- C6: when include_completed is false the completion filter excludes
exactly the VTODOs whose STATUS is COMPLETED or CANCELLED or which carry a
COMPLETED property, and passes every other component (and everything when
include_completed is true); an unset include_completed resolves to false
exactly when the todo flag is explicitly true, and an explicitly set value is
kept. -/
theorem c6_completed_filter (c : Comp) (s : Searcher) :
    (checkCompletedFilter (some false) c = false ↔
      (c.name = "VTODO" ∧
        (c.get "STATUS" = some (.text "COMPLETED")
         ∨ c.get "STATUS" = some (.text "CANCELLED")
         ∨ c.has "COMPLETED" = true)))
    ∧ checkCompletedFilter (some true) c = true
    ∧ (s.include_completed = none →
        ((resolveIncludeCompleted s).include_completed = some false ↔ s.todo = some true))
    ∧ (∀ b, s.include_completed = some b →
        (resolveIncludeCompleted s).include_completed = some b) := by
  refine ⟨?_, ?_, ?_, ?_⟩
  · unfold checkCompletedFilter statusCompletedOrCancelled pyTruthyOptBool
    by_cases hn : c.name = "VTODO"
    · rcases hget : c.get "STATUS" with _ | v
      · simp [hn, hget]
      · rcases v <;> simp [hn, hget] <;> tauto
    · simp [hn]
  · rfl
  · intro h
    unfold resolveIncludeCompleted pyTruthyOptBool
    rcases ht : s.todo with _ | b
    · simp [h, ht]
    · cases b <;> simp [h, ht]
  · intro b h
    simp [resolveIncludeCompleted, h]

/-- Witness for c6_completed_filter: a Searcher with todo=True and unset
include_completed resolves it to false. -/
theorem c6_completed_filter_witness :
    (({ todo := some true } : Searcher).include_completed = none)
    ∧ ((resolveIncludeCompleted ({ todo := some true } : Searcher)).include_completed
         = some false
       ↔ ({ todo := some true } : Searcher).todo = some true) := by
  exact ⟨rfl, (c6_completed_filter bareTodo { todo := some true }).2.2.1 rfl⟩

/-- C2: for a VEVENT evaluated against a time range, a missing start
propagates an incomplete-component failure; with a start present and no
DTEND and no DURATION, the effective end equals the start itself when the
start carries a time of day and start plus one day when it is date-only
(whole-day default), and the range test (spec section 4.2 steps 3–4,
`specRangeTest`) is then performed on that interval. -/
theorem c2_vevent_range (c : Comp) (qs qe : Option Int) (hname : c.name = "VEVENT") :
    (c.get "DTSTART" = none → checkRange qs qe c = .error .incomplete)
    ∧ (∀ t, c.get "DTSTART" = some (.time t) → c.get "DTEND" = none →
        c.get "DURATION" = none →
        checkRange qs qe c =
          .ok (specRangeTest qs qe (normalizeDt t) (normalizeDt (defaultEventEnd t)))) := by
  constructor
  · intro h
    simp [checkRange, componentStart, hname, h]
  · intro t h1 h2 h3
    by_cases ht : normalizeDt t = normalizeDt (defaultEventEnd t) <;>
      rcases qs with _ | vs <;> rcases qe with _ | ve <;>
        simp [checkRange, componentStart, componentEnd, specRangeTest, Except.map, hname, h1, h2,
          h3, ht]

/-- Witness for c2_vevent_range: a date-only event without DTEND covers
exactly its one day. -/
theorem c2_vevent_range_witness :
    (allDayEvent.name = "VEVENT"
      ∧ allDayEvent.get "DTSTART" = some (.time (.date 20000))
      ∧ allDayEvent.get "DTEND" = none ∧ allDayEvent.get "DURATION" = none)
    ∧ checkRange (some (20000 * 86400)) (some (20001 * 86400)) allDayEvent =
        .ok (specRangeTest (some (20000 * 86400)) (some (20001 * 86400))
          (normalizeDt (.date 20000)) (normalizeDt (defaultEventEnd (.date 20000)))) := by
  refine ⟨by decide, ?_⟩
  exact (c2_vevent_range allDayEvent (some (20000 * 86400)) (some (20001 * 86400))
    (by decide)).2 (.date 20000) (by decide) (by decide) (by decide)

/-- C4 counterexample: a VTODO with no usable timestamps does NOT match
every time-range query: the code spans it over the bounded
[DATE_MIN_DT, DATE_MAX_DT] interval, so the end-only query at exactly the
minimum instant fails the strict `end > comp_start` comparison. -/
theorem c4_counterexample :
    checkRange none (some dateMinInstant) bareTodo = .ok false := by
  decide

/-- C4 (amended): VTODO time-range evaluation: when only one of start and
end (due) is known the other defaults to it; when neither is known, CREATED
serves as start and COMPLETED as end when present; when the resulting end
precedes the start the two are swapped; and a VTODO with no usable
timestamps spans [DATE_MIN_DT, DATE_MAX_DT] and hence matches every
time-range query whose end bound (when set) lies strictly after DATE_MIN_DT
and whose start bound (when set) lies strictly before DATE_MAX_DT. -/
theorem c4_vtodo_range (c : Comp) (qs qe : Option Int) (hname : c.name = "VTODO") :
    (∀ t, c.get "DTSTART" = some (.time t) → c.get "DUE" = none →
        c.get "DURATION" = none →
        checkRange qs qe c = .ok (specRangeTest qs qe (normalizeDt t) (normalizeDt t)))
    ∧ (∀ t, c.get "DTSTART" = none → c.get "DUE" = some (.time t) →
        checkRange qs qe c = .ok (specRangeTest qs qe (normalizeDt t) (normalizeDt t)))
    ∧ (∀ ts te, c.get "DTSTART" = some (.time ts) → c.get "DUE" = some (.time te) →
        normalizeDt te < normalizeDt ts →
        checkRange qs qe c = .ok (specRangeTest qs qe (normalizeDt te) (normalizeDt ts)))
    ∧ (∀ tc tp, c.get "DTSTART" = none → c.get "DUE" = none → c.get "DURATION" = none →
        c.get "CREATED" = some (.time tc) → c.get "COMPLETED" = some (.time tp) →
        normalizeDt tc ≤ normalizeDt tp →
        checkRange qs qe c = .ok (specRangeTest qs qe (normalizeDt tc) (normalizeDt tp)))
    ∧ (c.get "DTSTART" = none → c.get "DUE" = none → c.get "DURATION" = none →
        c.get "CREATED" = none → c.get "COMPLETED" = none →
        (∀ e, qe = some e → dateMinInstant < e) →
        (∀ s1, qs = some s1 → s1 < dateMaxInstant) →
        checkRange qs qe c = .ok true) := by
  refine ⟨?_, ?_, ?_, ?_, ?_⟩
  · intro t h1 h2 h3
    rcases qs with _ | vs <;> rcases qe with _ | ve <;>
      simp [checkRange, componentStart, componentEnd, vtodoAdjust, specRangeTest, Except.map,
        hname, h1, h2, h3]
  · intro t h1 h2
    rcases qs with _ | vs <;> rcases qe with _ | ve <;>
      simp [checkRange, componentStart, componentEnd, vtodoAdjust, specRangeTest, Except.map,
        hname, h1, h2]
  · intro ts te h1 h2 hlt
    have hne : normalizeDt te ≠ normalizeDt ts := ne_of_lt hlt
    rcases qs with _ | vs <;> rcases qe with _ | ve <;>
      simp [checkRange, componentStart, componentEnd, vtodoAdjust, specRangeTest, Except.map,
        hname, h1, h2, hlt, hne]
  · intro tc tp h1 h2 h3 h4 h5 hle
    have hnlt : ¬ (normalizeDt tp < normalizeDt tc) := not_lt.mpr hle
    by_cases heq : normalizeDt tc = normalizeDt tp <;>
      rcases qs with _ | vs <;> rcases qe with _ | ve <;>
        simp [checkRange, componentStart, componentEnd, vtodoAdjust, specRangeTest, Except.map,
          hname, h1, h2, h3, h4, h5, hnlt, heq]
  · intro h1 h2 h3 h4 h5 hqe hqs
    have hmm : dateMinInstant ≠ dateMaxInstant := by decide
    rcases qs with _ | vs <;> rcases qe with _ | ve
    · simp [checkRange, componentStart, componentEnd, vtodoAdjust, Except.map,
        hname, h1, h2, h3, h4, h5, hmm]
    · have h7 := hqe ve rfl
      simp [checkRange, componentStart, componentEnd, vtodoAdjust, Except.map,
        hname, h1, h2, h3, h4, h5, hmm, h7]
    · have h6 := hqs vs rfl
      simp [checkRange, componentStart, componentEnd, vtodoAdjust, Except.map,
        hname, h1, h2, h3, h4, h5, hmm, h6]
    · have h6 := hqs vs rfl
      have h7 := hqe ve rfl
      simp [checkRange, componentStart, componentEnd, vtodoAdjust, Except.map,
        hname, h1, h2, h3, h4, h5, hmm, h6, h7]

/-- Witness for c4_vtodo_range: the no-timestamp VTODO matches an interior
query. -/
theorem c4_vtodo_range_witness :
    (bareTodo.name = "VTODO" ∧ bareTodo.get "DTSTART" = none ∧ bareTodo.get "DUE" = none
      ∧ bareTodo.get "DURATION" = none ∧ bareTodo.get "CREATED" = none
      ∧ bareTodo.get "COMPLETED" = none ∧ dateMinInstant < 1 ∧ (0 : Int) < dateMaxInstant)
    ∧ checkRange (some 0) (some 1) bareTodo = .ok true := by
  refine ⟨by decide, ?_⟩
  exact (c4_vtodo_range bareTodo (some 0) (some 1) (by decide)).2.2.2.2 (by decide) (by decide)
    (by decide) (by decide) (by decide)
    (fun e he => by cases he; decide) (fun s1 hs => by cases hs; decide)

/-- Helper: the window test spelled with conjunctions, as the claim words it. -/
theorem inAlarmWindow_spec (aS aE : Option Int) (t : Int) :
    inAlarmWindow aS aE t =
      (match aS, aE with
       | some a1, some b1 => decide (a1 ≤ t ∧ t < b1)
       | some a1, none => decide (a1 ≤ t)
       | none, some b1 => decide (t < b1)
       | none, none => false) := by
  rcases aS with _ | a1 <;> rcases aE with _ | b1 <;>
    simp [inAlarmWindow, ge_iff_le, Bool.decide_and]

/-- Helper: the fire times of the REPEAT=2 / DURATION=5min alarm anchored at
a known start t0 are exactly the offsets 0, 5 and 10 minutes. -/
theorem repeatAlarm_fireTimes (t0 : Int) :
    alarmFireTimes (some t0) (some t0) repeatAlarm = [t0, t0 + 300, t0 + 600] := by
  have h0 : alarmFireTimes (some t0) (some t0) repeatAlarm
      = [t0 + 0 + 300 * ((0 : Nat) : Int), t0 + 0 + 300 * ((1 : Nat) : Int),
         t0 + 0 + 300 * ((2 : Nat) : Int)] := rfl
  rw [h0]
  norm_num

/-- C7: the alarm matcher returns false for every component with no alarms;
in general it returns true iff some fire time of some alarm lies in the
alarm window (alarm_start <= t < alarm_end when both bounds are set, t >=
alarm_start when only the start is set, t < alarm_end when only the end is
set); and for an alarm with a trigger anchored at the component start,
REPEAT=2 and DURATION=5 minutes it evaluates exactly the REPEAT+1 fire times
at offsets 0, 5 and 10 minutes from the base fire time — in particular a
window covering only the middle offset matches. -/
theorem c7_alarm_matcher (aS aE : Option Int) (c : Comp) (t0 : Int) :
    (c.subs.filter (fun x => x.name == "VALARM") = [] → checkAlarmRange aS aE c = false)
    ∧ (checkAlarmRange aS aE c =
        (c.subs.filter (fun x => x.name == "VALARM")).any (fun a =>
          (alarmFireTimes (compStartOpt c) (compEndOpt c) a).any (fun t =>
            match aS, aE with
            | some a1, some b1 => decide (a1 ≤ t ∧ t < b1)
            | some a1, none => decide (a1 ≤ t)
            | none, some b1 => decide (t < b1)
            | none, none => false)))
    ∧ (checkAlarmRange aS aE (repeatAlarmEvent t0) =
        (inAlarmWindow aS aE t0 || inAlarmWindow aS aE (t0 + 300)
          || inAlarmWindow aS aE (t0 + 600)))
    ∧ checkAlarmRange (some 200) (some 400) (repeatAlarmEvent 0) = true
    ∧ inAlarmWindow (some 200) (some 400) 0 = false
    ∧ inAlarmWindow (some 200) (some 400) 600 = false := by
  refine ⟨?_, ?_, ?_, by decide, by decide, by decide⟩
  · intro h
    simp [checkAlarmRange, h]
  · by_cases he : c.subs.filter (fun x => x.name == "VALARM") = []
    · simp [checkAlarmRange, he]
    · have hfun : inAlarmWindow aS aE = fun t =>
          (match aS, aE with
           | some a1, some b1 => decide (a1 ≤ t ∧ t < b1)
           | some a1, none => decide (a1 ≤ t)
           | none, some b1 => decide (t < b1)
           | none, none => false) := funext fun t => inAlarmWindow_spec aS aE t
      simp only [checkAlarmRange, List.isEmpty_iff, he, if_false, hfun]
  · have hf : alarmFireTimes (compStartOpt (repeatAlarmEvent t0))
        (compEndOpt (repeatAlarmEvent t0)) repeatAlarm = [t0, t0 + 300, t0 + 600] := by
      have hs : compStartOpt (repeatAlarmEvent t0) = some t0 := rfl
      have hen : compEndOpt (repeatAlarmEvent t0) = some t0 := rfl
      rw [hs, hen, repeatAlarm_fireTimes]
    have hshape : checkAlarmRange aS aE (repeatAlarmEvent t0) =
        ([repeatAlarm].any fun a =>
          (alarmFireTimes (compStartOpt (repeatAlarmEvent t0))
            (compEndOpt (repeatAlarmEvent t0)) a).any (inAlarmWindow aS aE)) := rfl
    rw [hshape]
    simp [hf, Bool.or_assoc]

/-- Witness for c7_alarm_matcher: a component without alarms never matches an
alarm query. -/
theorem c7_alarm_matcher_witness :
    (bareTodo.subs.filter (fun x => x.name == "VALARM") = [])
    ∧ checkAlarmRange (some 0) (some 1) bareTodo = false := by
  refine ⟨rfl, ?_⟩
  exact (c7_alarm_matcher (some 0) (some 1) bareTodo 0).1 rfl

/-- Helper: a component holding a property under some key is a nonempty dict
and hence truthy. -/
theorem pyTruthy_of_get_isSome {c : Comp} {k : String} (h : (c.get k).isSome = true) :
    c.pyTruthy = true := by
  rcases c with ⟨n, props, subs⟩
  cases props with
  | nil => simp [Comp.get, Comp.getEntry, Comp.props, List.find?] at h
  | cons p ps => simp [Comp.pyTruthy, Comp.props, List.isEmpty]

/-- Helper: the caseless dictionary treats "recurrence-id" and
"RECURRENCE-ID" as one key. -/
theorem has_recurrence_id_caseless (c : Comp) :
    c.has "recurrence-id" = c.has "RECURRENCE-ID" := by
  have h : upperStr "recurrence-id" = upperStr "RECURRENCE-ID" := by decide
  simp [Comp.has, Comp.getEntry, h]

/-- Helper: the UID scan of normalization computes, when every scanned
component carries a uid, exactly "some element's uid differs from the first
element's uid". -/
theorem uidMismatchScan_spec (first : Comp) (comps : List Comp)
    (h : ∀ x ∈ comps, (x.get "uid").isSome = true)
    (hf : (first.get "uid").isSome = true) :
    uidMismatchScan first comps =
      .ok (comps.any fun x => decide (x.get "uid" ≠ first.get "uid")) := by
  induction comps with
  | nil => rfl
  | cons x rest ih =>
    have hx := h x (by simp)
    rcases hxu : x.get "uid" with _ | xu
    · rw [hxu] at hx; simp at hx
    · rcases hfu : first.get "uid" with _ | fu
      · rw [hfu] at hf; simp at hf
      · by_cases hne : xu = fu
        · subst hne
          simp [uidMismatchScan, hxu, hfu, ih (fun y hy => h y (by simp [hy]))]
        · have ht : x.pyTruthy = true := pyTruthy_of_get_isSome (by rw [hxu]; rfl)
          simp [uidMismatchScan, hxu, hfu, hne, ht]

/-- Helper: "two elements carry different UIDs" is equivalent to "some
element's uid differs from the first element's uid". -/
theorem mixedUid_pairwise_iff (first : Comp) (rest : List Comp) :
    specMixedUid (first :: rest) =
      ((first :: rest).any fun x => decide (x.get "uid" ≠ first.get "uid")) := by
  rw [Bool.eq_iff_iff]
  simp only [specMixedUid, List.any_eq_true, decide_eq_true_eq]
  constructor
  · rintro ⟨a, ha, b, hb, hne⟩
    by_cases haf : a.get "uid" = first.get "uid"
    · exact ⟨b, hb, fun hbf => hne (haf.trans hbf.symm)⟩
    · exact ⟨a, ha, haf⟩
  · rintro ⟨x, hx, hne⟩
    exact ⟨x, hx, first, by simp, hne⟩

/-- Helper: the source's recurrence-shape condition equals the claim's
wording of it. -/
theorem shape_cond_eq (first : Comp) (rest : List Comp) :
    (((!(first.has "RRULE")) && !(first.has "RECURRENCE-ID"))
      || (!(rest.all fun x => x.has "recurrence-id"))
      || (rest.any fun x => x.has "RRULE"))
    = specShapeViolated (first :: rest) := by
  rw [Bool.eq_iff_iff]
  simp only [specShapeViolated, has_recurrence_id_caseless, Bool.or_eq_true,
    Bool.and_eq_true, Bool.not_eq_true', List.any_eq_true, List.all_eq_false,
    Bool.not_eq_true]
  constructor
  · rintro ((⟨h1, h2⟩ | ⟨x, hx, hno⟩) | ⟨x, hx, hr⟩)
    · exact Or.inl ⟨h1, h2⟩
    · exact Or.inr ⟨x, hx, Or.inl (by simpa using hno)⟩
    · exact Or.inr ⟨x, hx, Or.inr hr⟩
  · rintro (⟨h1, h2⟩ | ⟨x, hx, hno | hyes⟩)
    · exact Or.inl (Or.inl ⟨h1, h2⟩)
    · exact Or.inl (Or.inr ⟨x, hx, by simpa using hno⟩)
    · exact Or.inr ⟨x, hx, hyes⟩

/-- C3: normalization raises an invalid-input error exactly when the list of
non-timezone subcomponents is empty; or it has length > 1 and the first
element lacks both RRULE and RECURRENCE-ID, or some later element lacks
RECURRENCE-ID or carries RRULE; or two elements carry different UIDs — and
otherwise returns the ordered list of those components. On any such error
check_component aborts with the same error, touching no state (no partial
results). (All components carrying a uid is assumed so that the scan's
key-lookup failure, claim C10's concern, does not preempt the comparison.) -/
theorem c3_normalization (input : Comp) (s : Searcher) (ex : Expander) (eo ig : Bool)
    (huid : ∀ x ∈ nonTzComponents input, (x.get "uid").isSome = true) :
    validateAndNormalize input = specNormalizeOutcome (nonTzComponents input)
    ∧ (∀ e, validateAndNormalize input = .error e →
        checkComponentAux s ex input eo ig = (s, .error e)) := by
  constructor
  · unfold validateAndNormalize specNormalizeOutcome
    rcases hc : nonTzComponents input with _ | ⟨first, rest⟩
    · simp
    · rw [hc] at huid
      have hf : (first.get "uid").isSome = true := huid first (by simp)
      have hscan := uidMismatchScan_spec first (first :: rest) huid hf
      simp only [List.isEmpty_cons, List.drop_succ_cons, List.drop_zero, hscan,
        mixedUid_pairwise_iff, shape_cond_eq, Bool.false_eq_true, if_false]
      rcases hshape : specShapeViolated (first :: rest) with _ | _ <;>
        rcases hany : ((first :: rest).any fun x =>
          decide (x.get "uid" ≠ first.get "uid")) with _ | _ <;>
        simp [hshape, hany]
  · intro e he
    unfold checkComponentAux checkComponentCore
    rw [he]

/-- Witness for c3_normalization: a master+exception recurrence set with one
UID normalizes to its two components. -/
theorem c3_normalization_witness :
    (∀ x ∈ nonTzComponents c3Input, (x.get "uid").isSome = true)
    ∧ validateAndNormalize c3Input = specNormalizeOutcome (nonTzComponents c3Input) := by
  refine ⟨by decide, ?_⟩
  exact (c3_normalization c3Input {} idExpander false false (by decide)).1

/-- Helper: normalizing the range fields twice is the same as once. -/
theorem normalizeRanges_idem (s : Searcher) :
    normalizeRanges (normalizeRanges s) = normalizeRanges s := by
  have hm : ∀ o : Option ICalTime,
      ((o.map (fun v => ICalTime.dateTime (normalizeDt v))).map
        (fun v => ICalTime.dateTime (normalizeDt v)))
      = o.map (fun v => ICalTime.dateTime (normalizeDt v)) := by
    intro o
    rcases o with _ | v
    · rfl
    · rfl
  cases s
  simp [normalizeRanges, hm]

/-- Helper: the include_completed resolution is a no-op once the field is
set. -/
theorem resolveIncludeCompleted_noop {s : Searcher} (h : s.include_completed ≠ none) :
    resolveIncludeCompleted s = s := by
  unfold resolveIncludeCompleted
  simp [h]

/-- Helper: the kind-flag resolution is a no-op once all three flags are
set. -/
theorem resolveKindFlags_noop {s : Searcher} (h1 : s.todo.isSome = true)
    (h2 : s.event.isSome = true) (h3 : s.journal.isSome = true) :
    resolveKindFlags s = s := by
  rcases ht : s.todo with _ | bt
  · rw [ht] at h1; simp at h1
  rcases he : s.event with _ | be
  · rw [he] at h2; simp at h2
  rcases hj : s.journal with _ | bj
  · rw [hj] at h3; simp at h3
  unfold resolveKindFlags
  cases s
  simp only at ht he hj
  subst ht he hj
  rcases bt <;> rcases be <;> rcases bj <;> simp [pyTruthyOptBool]

/-- Helper: kind-flag resolution leaves include_completed alone. -/
theorem resolveKindFlags_ic (s : Searcher) :
    (resolveKindFlags s).include_completed = s.include_completed := by
  unfold resolveKindFlags
  split <;> rfl

/-- Helper: include_completed is set after its resolution. -/
theorem resolveIncludeCompleted_isSome (s : Searcher) :
    (resolveIncludeCompleted s).include_completed.isSome = true := by
  unfold resolveIncludeCompleted
  split
  · rfl
  · rename_i h
    rcases hic : s.include_completed with _ | b
    · exact absurd hic h
    · simp [hic]

/-- Helper: all three kind flags are set after their resolution. -/
theorem resolveKindFlags_isSome (s : Searcher) :
    (resolveKindFlags s).todo.isSome = true
    ∧ (resolveKindFlags s).event.isSome = true
    ∧ (resolveKindFlags s).journal.isSome = true := by
  unfold resolveKindFlags
  split <;> exact ⟨rfl, rfl, rfl⟩

/-- Helper: the full resolution absorbs a preceding range normalization. -/
theorem fullyResolve_normalizeRanges (s : Searcher) :
    fullyResolve (normalizeRanges s) = fullyResolve s := by
  unfold fullyResolve
  rw [normalizeRanges_idem]

/-- Helper: range normalization is a no-op on a fully-resolved state. -/
theorem normalizeRanges_fullyResolve (s : Searcher) :
    normalizeRanges (fullyResolve s) = fullyResolve s := by
  have h1 : ∀ t : Searcher, normalizeRanges (resolveIncludeCompleted t)
      = resolveIncludeCompleted (normalizeRanges t) := by
    intro t
    unfold resolveIncludeCompleted
    have hic : (normalizeRanges t).include_completed = t.include_completed := rfl
    have htd : (normalizeRanges t).todo = t.todo := rfl
    rw [hic, htd]
    split <;> rfl
  have h2 : ∀ t : Searcher, normalizeRanges (resolveKindFlags t)
      = resolveKindFlags (normalizeRanges t) := by
    intro t
    unfold resolveKindFlags
    have htd : (normalizeRanges t).todo = t.todo := rfl
    have hev : (normalizeRanges t).event = t.event := rfl
    have hjo : (normalizeRanges t).journal = t.journal := rfl
    rw [htd, hev, hjo]
    split <;> rfl
  unfold fullyResolve
  rw [h2, h1, normalizeRanges_idem]

/-- Helper: the full resolution is idempotent, and re-running its pieces on a
fully-resolved state changes nothing. -/
theorem resolve_fullyResolve (s : Searcher) :
    resolveKindFlags (resolveIncludeCompleted (fullyResolve s)) = fullyResolve s := by
  have hic : (fullyResolve s).include_completed ≠ none := by
    unfold fullyResolve
    rw [resolveKindFlags_ic]
    have := resolveIncludeCompleted_isSome (normalizeRanges s)
    intro habs
    rw [habs] at this
    simp at this
  rw [resolveIncludeCompleted_noop hic]
  have hf := resolveKindFlags_isSome (resolveIncludeCompleted (normalizeRanges s))
  exact resolveKindFlags_noop hf.1 hf.2.1 hf.2.2

/-- Helper: the tail of the body always returns the resolved state. -/
theorem checkComponentRest_state (s2 : Searcher) (ex : Expander)
    (origSet recSet : List Comp) (first : Comp) (eo ig : Bool) :
    (checkComponentRest s2 ex origSet recSet first eo ig).1
      = resolveKindFlags (resolveIncludeCompleted s2) := by
  unfold checkComponentRest
  dsimp only
  repeat' split
  all_goals rfl

/-- Helper: the master pre-check returns its range-normalized Searcher or
whatever state the inner call left, hence a resolved state when the inner
call resolves. -/
theorem checkComponentStep1_state (s : Searcher) (o : List Comp) (f : Comp)
    (eo ig : Bool) (inner : Searcher → Comp → Searcher × Except PyError CheckResult)
    (hinner : ∀ c, (inner (normalizeRanges s) c).1 = normalizeRanges s
      ∨ (inner (normalizeRanges s) c).1 = fullyResolve s) :
    (checkComponentStep1 (normalizeRanges s) o f eo ig inner).1 = normalizeRanges s
    ∨ (checkComponentStep1 (normalizeRanges s) o f eo ig inner).1 = fullyResolve s := by
  unfold checkComponentStep1
  split
  · split
    · rename_i s2 e hm
      have h1 := congrArg Prod.fst hm
      dsimp only at h1 ⊢
      rw [← h1]
      exact hinner f
    · rename_i s2 r hm
      have h1 := congrArg Prod.fst hm
      dsimp only at h1
      split <;> (dsimp only; rw [← h1]; exact hinner f)
  · exact Or.inl rfl

/-- Helper: the body of check_component only ever returns its Searcher
untouched, range-normalized, or fully resolved, provided the abstracted
inner call does the same. -/
theorem checkComponentCore_state (s : Searcher) (ex : Expander) (input : Comp)
    (eo ig : Bool) (inner : Searcher → Comp → Searcher × Except PyError CheckResult)
    (hinner : ∀ st c, (inner st c).1 = st ∨ (inner st c).1 = normalizeRanges st
      ∨ (inner st c).1 = fullyResolve st) :
    (checkComponentCore s ex input eo ig inner).1 = s
    ∨ (checkComponentCore s ex input eo ig inner).1 = normalizeRanges s
    ∨ (checkComponentCore s ex input eo ig inner).1 = fullyResolve s := by
  have hrest : ∀ (s2 : Searcher) (o r : List Comp) (f : Comp),
      (s2 = normalizeRanges s ∨ s2 = fullyResolve s) →
      ((checkComponentRest s2 ex o r f eo ig).1 = normalizeRanges s
        ∨ (checkComponentRest s2 ex o r f eo ig).1 = fullyResolve s) := by
    intro s2 o r f h2
    rw [checkComponentRest_state]
    rcases h2 with h2 | h2 <;> rw [h2]
    · right
      have : resolveKindFlags (resolveIncludeCompleted (normalizeRanges s)) = fullyResolve s :=
        rfl
      rw [this]
    · right
      rw [resolve_fullyResolve]
  have hstep : ∀ (st : Searcher), (st = normalizeRanges s) →
      ∀ c, ((inner st c).1 = normalizeRanges s ∨ (inner st c).1 = fullyResolve s) := by
    intro st hst c
    rcases hinner st c with h | h | h <;> rw [h, hst]
    · exact Or.inl rfl
    · exact Or.inl (normalizeRanges_idem s)
    · exact Or.inr (fullyResolve_normalizeRanges s)
  have hstep' : ∀ c, (inner (normalizeRanges s) c).1 = normalizeRanges s
      ∨ (inner (normalizeRanges s) c).1 = fullyResolve s :=
    hstep (normalizeRanges s) rfl
  unfold checkComponentCore
  split
  · exact Or.inl rfl
  · split
    · exact Or.inl rfl
    · dsimp only
      split
      · rename_i s2 e heq
        have h1 := congrArg Prod.fst heq
        dsimp only at h1 ⊢
        rw [← h1]
        exact (checkComponentStep1_state s _ _ eo ig inner hstep').elim
          (fun h => Or.inr (Or.inl h)) (fun h => Or.inr (Or.inr h))
      · rename_i s2 recSet heq
        have h1 := congrArg Prod.fst heq
        dsimp only at h1
        have hs2 : s2 = normalizeRanges s ∨ s2 = fullyResolve s := by
          rw [← h1]
          exact checkComponentStep1_state s _ _ eo ig inner hstep'
        rcases hrest s2 _ recSet _ hs2 with h | h
        · exact Or.inr (Or.inl h)
        · exact Or.inr (Or.inr h)

/-- Helper: check_component's post-call state is the original, the
range-normalized, or the fully-resolved Searcher. -/
theorem checkComponentAux_state (s : Searcher) (ex : Expander) (input : Comp)
    (eo ig : Bool) :
    (checkComponentAux s ex input eo ig).1 = s
    ∨ (checkComponentAux s ex input eo ig).1 = normalizeRanges s
    ∨ (checkComponentAux s ex input eo ig).1 = fullyResolve s := by
  unfold checkComponentAux
  apply checkComponentCore_state
  intro st c
  exact checkComponentCore_state st ex c false true innerUnused
    (fun st2 c2 => Or.inl rfl)

/-- Helper: the resolutions never touch expand, property_filters or
sort_keys. -/
theorem fullyResolve_frame (s : Searcher) :
    (fullyResolve s).expand = s.expand
    ∧ (fullyResolve s).property_filters = s.property_filters
    ∧ (fullyResolve s).sort_keys = s.sort_keys := by
  unfold fullyResolve resolveKindFlags resolveIncludeCompleted normalizeRanges
  refine ⟨?_, ?_, ?_⟩
  all_goals (repeat' split)
  all_goals rfl

/-- Helper: resolving an already fully resolved Searcher changes nothing. -/
theorem fullyResolve_idem (s : Searcher) :
    fullyResolve (fullyResolve s) = fullyResolve s := by
  have h : fullyResolve (fullyResolve s)
      = resolveKindFlags (resolveIncludeCompleted (normalizeRanges (fullyResolve s))) := rfl
  rw [h, normalizeRanges_fullyResolve, resolve_fullyResolve]

/-- Helper: every state check_component can leave resolves to the same
fully resolved Searcher. -/
theorem fullyResolve_collapse {u t : Searcher}
    (h : u = t ∨ u = normalizeRanges t ∨ u = fullyResolve t) :
    fullyResolve u = fullyResolve t := by
  rcases h with h | h | h <;> rw [h]
  · exact fullyResolve_normalizeRanges t
  · exact fullyResolve_idem t

/-- Helper: check_component never touches expand, property_filters or
sort_keys. -/
theorem checkComponentAux_frame (s : Searcher) (ex : Expander) (input : Comp)
    (eo ig : Bool) :
    (checkComponentAux s ex input eo ig).1.expand = s.expand
    ∧ (checkComponentAux s ex input eo ig).1.property_filters = s.property_filters
    ∧ (checkComponentAux s ex input eo ig).1.sort_keys = s.sort_keys := by
  rcases checkComponentAux_state s ex input eo ig with h | h | h <;> rw [h]
  · exact ⟨rfl, rfl, rfl⟩
  · exact ⟨rfl, rfl, rfl⟩
  · exact fullyResolve_frame s

/-- C8 counterexample: the claim's "no field other than the four range
fields is modified" fails: a first matching call on a Searcher with an
unset include_completed writes include_completed (and the kind flags) back,
while all four range fields stay unset before and after. -/
theorem c8_counterexample :
    c8Pre.include_completed = none ∧ c8Pre.event = none
    ∧ (checkComponentAux c8Pre idExpander bareTodo false false).1.include_completed = some false
    ∧ (checkComponentAux c8Pre idExpander bareTodo false false).1.event = some false
    ∧ c8Pre.start = none ∧ c8Pre.stop = none
    ∧ c8Pre.alarm_start = none ∧ c8Pre.alarm_end = none
    ∧ (checkComponentAux c8Pre idExpander bareTodo false false).1.start = none
    ∧ (checkComponentAux c8Pre idExpander bareTodo false false).1.stop = none
    ∧ (checkComponentAux c8Pre idExpander bareTodo false false).1.alarm_start = none
    ∧ (checkComponentAux c8Pre idExpander bareTodo false false).1.alarm_end = none := by
  decide

/-- C8 (amended): a match invocation leaves the Searcher unchanged,
range-normalized, or fully resolved — besides the documented in-place range
normalization it may also write back the include_completed default and the
three component-kind flags — and never modifies expand, property_filters or
sort_keys. -/
theorem c8_frame (s : Searcher) (ex : Expander) (input : Comp) (eo ig : Bool) :
    ((checkComponentAux s ex input eo ig).1 = s
      ∨ (checkComponentAux s ex input eo ig).1 = normalizeRanges s
      ∨ (checkComponentAux s ex input eo ig).1 = fullyResolve s)
    ∧ (checkComponentAux s ex input eo ig).1.expand = s.expand
    ∧ (checkComponentAux s ex input eo ig).1.property_filters = s.property_filters
    ∧ (checkComponentAux s ex input eo ig).1.sort_keys = s.sort_keys :=
  ⟨checkComponentAux_state s ex input eo ig, checkComponentAux_frame s ex input eo ig⟩

/-- C10 counterexample: the claim's "for every input containing a UID-less
component the call fails with a key-lookup error" fails: an input of two
UID-less components that violates the recurrence-set shape check fails with
invalid-recurrence-set — one of the three specified invalid-input errors —
before any "uid" lookup happens. -/
theorem c10_counterexample :
    ((nonTzComponents c10Input).all (fun x => (x.get "uid").isNone)) = true
    ∧ validateAndNormalize c10Input = .error .invalidRecurrenceSet
    ∧ (Except.error .invalidRecurrenceSet : Except PyError (List Comp))
        ≠ .error (.keyError "uid") := by
  refine ⟨by decide, by rfl, ?_⟩
  intro h
  simp at h

/-- C10 (amended): whenever the input passes the emptiness and
recurrence-set shape checks and its first non-timezone component lacks a
"uid" entry, normalization fails with KeyError "uid" — a failure distinct
from the three specified invalid-input error kinds; when the shape check
fails first, its error preempts the key lookup. -/
theorem c10_uid_required (input first : Comp) (rest : List Comp)
    (hcomps : nonTzComponents input = first :: rest)
    (hfirst : first.get "uid" = none)
    (hshape : ((first :: rest).length > 1 &&
       ((!(first.has "RRULE") && !(first.has "RECURRENCE-ID")) ||
        !(rest.all (fun x => x.has "recurrence-id")) ||
        rest.any (fun x => x.has "RRULE"))) = false) :
    validateAndNormalize input = .error (.keyError "uid") := by
  unfold validateAndNormalize
  rw [hcomps]
  simp only [List.drop_succ_cons, List.drop_zero, hshape, Bool.false_eq_true, if_false]
  simp only [uidMismatchScan, hfirst]

/-- Witness for c10_uid_required: a single bare UID-less VTODO. -/
theorem c10_uid_required_witness :
    validateAndNormalize (Comp.mk "VTODO" [] []) = .error (.keyError "uid") :=
  c10_uid_required (Comp.mk "VTODO" [] []) (Comp.mk "VTODO" [] []) []
    (by rfl) (by rfl) (by decide)

/-- Helper: the master pre-check returns the incoming state or the inner
call's post-state. -/
theorem checkComponentStep1_post (t : Searcher) (o : List Comp) (f : Comp)
    (eo ig : Bool) (inner : Searcher → Comp → Searcher × Except PyError CheckResult) :
    (checkComponentStep1 t o f eo ig inner).1 = t
    ∨ (checkComponentStep1 t o f eo ig inner).1 = (inner t f).1 := by
  unfold checkComponentStep1
  split
  · split
    · rename_i s2 e hm
      right
      rw [hm]
    · rename_i s2 r hm
      right
      rw [hm]
      split <;> rfl
  · exact Or.inl rfl

/-- Helper: the master pre-check's returned component set is insensitive to
replacing the range-normalized state by the fully resolved one, as long as
the inner call's result is. -/
theorem checkComponentStep1_result (s : Searcher) (o : List Comp) (f : Comp)
    (eo ig : Bool) (inner : Searcher → Comp → Searcher × Except PyError CheckResult)
    (hres : ∀ c, (inner (normalizeRanges s) c).2 = (inner (fullyResolve s) c).2) :
    (checkComponentStep1 (normalizeRanges s) o f eo ig inner).2
      = (checkComponentStep1 (fullyResolve s) o f eo ig inner).2 := by
  unfold checkComponentStep1
  split
  · have h := hres f
    rcases hL : inner (normalizeRanges s) f with ⟨a, ra⟩
    rcases hR : inner (fullyResolve s) f with ⟨b, rb⟩
    rw [hL, hR] at h
    dsimp only at h
    subst h
    rcases ra with e | r
    · rfl
    · dsimp only
      split <;> rfl
  · rfl

/-- Helper: the tail of check_component reads its state only through the
include_completed and kind-flag resolutions, so states with the same
resolution are interchangeable. -/
theorem checkComponentRest_congr (sa sb : Searcher) (ex : Expander)
    (o r : List Comp) (f : Comp) (eo ig : Bool)
    (h : resolveKindFlags (resolveIncludeCompleted sa)
       = resolveKindFlags (resolveIncludeCompleted sb)) :
    checkComponentRest sa ex o r f eo ig = checkComponentRest sb ex o r f eo ig := by
  unfold checkComponentRest
  dsimp only
  rw [h]

/-- Helper: the observable result of check_component's body is unchanged when
the call starts from the fully resolved Searcher instead, provided the inner
call's result is and its post-states are among the three reachable states. -/
theorem checkComponentCore_result (s : Searcher) (ex : Expander) (input : Comp)
    (eo ig : Bool) (inner : Searcher → Comp → Searcher × Except PyError CheckResult)
    (hst : ∀ st c, (inner st c).1 = st ∨ (inner st c).1 = normalizeRanges st
      ∨ (inner st c).1 = fullyResolve st)
    (hres : ∀ c, (inner (normalizeRanges s) c).2 = (inner (fullyResolve s) c).2) :
    (checkComponentCore s ex input eo ig inner).2
      = (checkComponentCore (fullyResolve s) ex input eo ig inner).2 := by
  have hbase : resolveKindFlags (resolveIncludeCompleted (normalizeRanges s))
      = fullyResolve s := rfl
  have hKN : ∀ u : Searcher, u = normalizeRanges s ∨ u = fullyResolve s →
      resolveKindFlags (resolveIncludeCompleted u) = fullyResolve s := by
    intro u h
    rcases h with h | h <;> rw [h]
    · exact hbase
    · exact resolve_fullyResolve s
  have hstL : ∀ c, (inner (normalizeRanges s) c).1 = normalizeRanges s
      ∨ (inner (normalizeRanges s) c).1 = fullyResolve s := by
    intro c
    rcases hst (normalizeRanges s) c with h | h | h <;> rw [h]
    · exact Or.inl rfl
    · exact Or.inl (normalizeRanges_idem s)
    · exact Or.inr (fullyResolve_normalizeRanges s)
  have hstR : ∀ c, (inner (fullyResolve s) c).1 = fullyResolve s := by
    intro c
    rcases hst (fullyResolve s) c with h | h | h
    · exact h
    · rw [h]
      exact normalizeRanges_fullyResolve s
    · rw [h]
      exact fullyResolve_idem s
  have hK1 : ∀ (o : List Comp) (f : Comp),
      resolveKindFlags (resolveIncludeCompleted
        (checkComponentStep1 (normalizeRanges s) o f eo ig inner).1) = fullyResolve s := by
    intro o f
    rcases checkComponentStep1_post (normalizeRanges s) o f eo ig inner with h | h
    · rw [h]
      exact hbase
    · rw [h]
      exact hKN _ (hstL f)
  have hK2 : ∀ (o : List Comp) (f : Comp),
      resolveKindFlags (resolveIncludeCompleted
        (checkComponentStep1 (fullyResolve s) o f eo ig inner).1) = fullyResolve s := by
    intro o f
    rcases checkComponentStep1_post (fullyResolve s) o f eo ig inner with h | h
    · rw [h]
      exact resolve_fullyResolve s
    · rw [h, hstR f]
      exact resolve_fullyResolve s
  unfold checkComponentCore
  rcases hv : validateAndNormalize input with e | origSet
  · rfl
  · dsimp only
    rw [(fullyResolve_frame s).1, normalizeRanges_fullyResolve s]
    split
    · rfl
    · have h2 := checkComponentStep1_result s origSet
        (origSet.headD (Comp.mk "" [] [])) eo ig inner hres
      rcases hL : checkComponentStep1 (normalizeRanges s) origSet
        (origSet.headD (Comp.mk "" [] [])) eo ig inner with ⟨a, ra⟩
      rcases hR : checkComponentStep1 (fullyResolve s) origSet
        (origSet.headD (Comp.mk "" [] [])) eo ig inner with ⟨b, rb⟩
      rw [hL, hR] at h2
      dsimp only at h2
      subst h2
      rcases ra with e | recSet
      · rfl
      · dsimp only
        have ha := hK1 origSet (origSet.headD (Comp.mk "" [] []))
        have hb := hK2 origSet (origSet.headD (Comp.mk "" [] []))
        rw [hL] at ha
        rw [hR] at hb
        dsimp only at ha hb
        rw [checkComponentRest_congr a b ex origSet recSet
          (origSet.headD (Comp.mk "" [] [])) eo ig (ha.trans hb.symm)]

/-- Helper: check_component's observable result is unchanged when the call
starts from the fully resolved Searcher instead. -/
theorem checkComponentAux_result (s : Searcher) (ex : Expander) (input : Comp)
    (eo ig : Bool) :
    (checkComponentAux s ex input eo ig).2
      = (checkComponentAux (fullyResolve s) ex input eo ig).2 := by
  unfold checkComponentAux
  apply checkComponentCore_result
  · intro st c
    exact checkComponentCore_state st ex c false true innerUnused
      (fun a b => Or.inl rfl)
  · intro c
    have h := checkComponentCore_result (normalizeRanges s) ex c false true innerUnused
      (fun st c2 => Or.inl rfl) (fun c2 => rfl)
    rw [fullyResolve_normalizeRanges] at h
    exact h

/-- C9 (code bug): the snapshot's `Searcher.filter` and `Searcher.sort`
raise NotImplementedError on every input — they never return the filtered
list or sorted copy the claim describes. -/
theorem c9_filter_sort_stubs (s : Searcher) (l : List Comp) :
    Searcher.filter s l = .error .notImplemented
    ∧ Searcher.sort s l = .error .notImplemented
    ∧ (∀ out, Searcher.filter s l ≠ .ok out)
    ∧ (∀ out, Searcher.sort s l ≠ .ok out) :=
  ⟨rfl, rfl, fun out hb => Except.noConfusion hb, fun out hb => Except.noConfusion hb⟩

end ICalSearcher
